import Mathlib

/-!
Verification development for the RSVP resolution / messaging-window core of an
event-management backend.  The two inbound webhooks (`track_send`,
`whatsapp_rsvp`) and the outbound send orchestrator (`SendLocalTemplateView.post`)
are embedded shallowly: the database is an explicit list-valued state, external
collaborators (JSON parsing, datetime parsing, the notification channel, the
outbound messaging channel, the queue insert) are oracles passed as arguments,
and machine dates are integers (arbitrary time unit).
-/

/-- A Python `datetime`: an instant plus an awareness flag.  A naive datetime
carries `aware = false`; attaching `tzinfo=utc` keeps the wall-clock value and
sets the flag. -/
structure PyDateTime where
  t : Int
  aware : Bool
deriving DecidableEq

/-- Translation of `_ensure_aware` (webhooks.py): make a datetime
timezone-aware in UTC if naive (the `None` case is handled at the call site,
where the parse result is an `Option`). -/
def ensure_aware (d : PyDateTime) : PyDateTime :=
  if d.aware then d else { t := d.t, aware := true }

/-- Translation of `_norm_digits` (webhooks.py): keep only (ASCII) digits and
then the last 15 characters. -/
def norm_digits (s : String) : String :=
  let d := s.data.filter Char.isDigit
  String.mk (d.drop (d.length - 15))

/-- Python `str.strip()`: remove leading and trailing whitespace.  (Defined
over the character list so that it reduces inside the kernel.) -/
def pyStrip (s : String) : String :=
  String.mk (((s.data.dropWhile Char.isWhitespace).reverse.dropWhile Char.isWhitespace).reverse)

/-- Python `str.lower()` on ASCII text.  (Defined over the character list so
that it reduces inside the kernel.) -/
def pyLower (s : String) : String :=
  String.mk (s.data.map Char.toLower)

/-- Python truthiness for an optional string field followed by `or None`:
an absent or empty string collapses to `none`. -/
def orNone (o : Option String) : Option String :=
  match o with
  | some s => if s = "" then none else some s
  | none => none

/-- 30 days, the mapping TTL (`timedelta(days=30)`), in seconds. -/
def thirtyDays : Int := 30 * 86400

/-- 24 hours, the messaging window, in seconds. -/
def hours24 : Int := 24 * 3600

/-- Modelled from the spec: the Registration row (`EventRegistration`); the
model module itself is not among the provided sources, so the attributes are
taken from the data-model section of the specification (unique id, owning
event, guest, rsvp status, response timestamp, creation time, party-size
fields). -/
structure EventRegistration where
  id : String
  eventId : String
  guestId : String
  rsvpStatus : String
  respondedOn : Option PyDateTime
  createdAt : Int
  estimatedPax : Option Nat
  additionalGuestCount : Option Nat
deriving DecidableEq

/-- Modelled from the spec: the SendMapping row (`WaSendMap`); the model module
itself is not among the provided sources, so the attributes are taken from the
data-model section of the specification (unique id, normalized messaging
identity, owning event, registration, optional correlator `template_wamid`,
expiry, optional consumed timestamp).  `createdAt` is set once at insertion
(Django `auto_now_add` convention; the spec distinguishes creation from
refresh). -/
structure WaSendMap where
  id : String
  waId : String
  eventId : String
  eventRegistration : String
  templateWamid : Option String
  createdAt : Int
  expiresAt : Int
  consumedAt : Option Int
deriving DecidableEq

/-- The persistent store visible to the two webhooks. -/
structure Db where
  regs : List EventRegistration
  maps : List WaSendMap
deriving DecidableEq

/-- Lexicographic (byte-wise) order on character lists, used for primary-key
comparison of the (ASCII) row ids. -/
def charsLt : List Char → List Char → Bool
  | [], [] => false
  | [], _ :: _ => true
  | _ :: _, [] => false
  | a :: as, b :: bs =>
    if a.toNat < b.toNat then true
    else if b.toNat < a.toNat then false
    else charsLt as bs

/-- Primary-key order on row ids. -/
def pkLt (a b : String) : Bool := charsLt a.data b.data

/-- Django `.first()` on an unordered queryset: the row with the smallest
primary key. -/
def firstByPk (l : List WaSendMap) : Option WaSendMap :=
  l.foldl
    (fun acc m =>
      match acc with
      | none => some m
      | some a => if pkLt m.id a.id then some m else some a)
    none

/-- Django `.order_by("-created_at").first()` over mappings: the most recently
created row (ties broken by smaller primary key). -/
def latestMap (l : List WaSendMap) : Option WaSendMap :=
  l.foldl
    (fun acc m =>
      match acc with
      | none => some m
      | some a =>
        if a.createdAt < m.createdAt ∨ (a.createdAt = m.createdAt ∧ pkLt m.id a.id)
        then some m else some a)
    none

/-- Django `.order_by("-created_at").first()` over registrations. -/
def latestReg (l : List EventRegistration) : Option EventRegistration :=
  l.foldl
    (fun acc r =>
      match acc with
      | none => some r
      | some a =>
        if a.createdAt < r.createdAt ∨ (a.createdAt = r.createdAt ∧ pkLt r.id a.id)
        then some r else some a)
    none

/-- Body of the send-tracking webhook (`track_send`).  A JSON field that may be
absent is an `Option`. -/
structure TrackBody where
  waId : String
  eventId : Option String
  eventRegistrationId : Option String
  templateWamid : Option String
deriving DecidableEq

/-- Request-level inputs of `track_send`: shared secret, header token, whether
the body parses as JSON, the body, the request time and the id a newly created
mapping row would receive. -/
structure TrackArgs where
  secret : String
  header : String
  jsonOk : Bool
  body : TrackBody
  now : Int
  newId : String
deriving DecidableEq

/-- Responses of `track_send`, by HTTP class. -/
inductive TrackResult where
  | forbidden
  | badRequest (reason : String)
  | ok (mapId : String)
deriving DecidableEq

/-- Correlator scope: rows carrying correlator `c` (the lookup predicate of
the correlator-keyed upsert). -/
def corrKey (c : String) (m : WaSendMap) : Bool :=
  m.templateWamid == some c

/-- The lookup predicate of the plain upsert: rows for the (identity, event)
pair, with or without a correlator. -/
def weKey (w e : String) (m : WaSendMap) : Bool :=
  m.waId == w && m.eventId == e

/-- Plain scope of the upsert invariant: correlator-free rows for the
(identity, event) pair. -/
def plainKey (w e : String) (m : WaSendMap) : Bool :=
  m.templateWamid == none && m.waId == w && m.eventId == e

/-- The `defaults` dict of the `update_or_create` calls in `track_send`,
applied to an existing row: identity, event, registration and a refreshed
expiry are overwritten; id, correlator, creation time and consumption marker
are untouched. -/
def trackDefaults (waId : String) (er : EventRegistration) (now : Int)
    (m : WaSendMap) : WaSendMap :=
  { m with waId := waId, eventId := er.eventId, eventRegistration := er.id,
           expiresAt := now + thirtyDays }

/-- The row created by `update_or_create` when the lookup finds nothing:
lookup kwargs plus `defaults`, with `created_at` set now. -/
def trackNewRow (a : TrackArgs) (waId : String) (er : EventRegistration)
    (wamid : Option String) : WaSendMap :=
  { id := a.newId, waId := waId, eventId := er.eventId, eventRegistration := er.id,
    templateWamid := wamid, createdAt := a.now, expiresAt := a.now + thirtyDays,
    consumedAt := none }

/-- The upsert block of `track_send`: `update_or_create` keyed on
`template_wamid` when one is given, else on `(wa_id, event)`.  Django's
`update_or_create` looks the key up with `get`: zero matches insert, one match
is updated in place, several matches raise `MultipleObjectsReturned`, which the
surrounding `except` turns into a client error.  (`upsertByKey` is the common
shape of both calls; the created row's id is the fresh `newId`.) -/
def upsertByKey (key : WaSendMap → Bool) (upd : WaSendMap → WaSendMap)
    (newRow : WaSendMap) (db : Db) : TrackResult × Db :=
  match db.maps.filter key with
  | [] => (.ok newRow.id, { db with maps := db.maps ++ [newRow] })
  | [m] =>
    (.ok m.id, { db with maps := db.maps.map (fun x => if key x then upd x else x) })
  | _ => (.badRequest "track_send error", db)

/-- The two `update_or_create` calls of `track_send`, dispatched on whether a
correlator is present. -/
def trackUpsert (a : TrackArgs) (waId : String) (er : EventRegistration)
    (db : Db) : TrackResult × Db :=
  match orNone a.body.templateWamid with
  | some c =>
    upsertByKey (corrKey c) (trackDefaults waId er a.now)
      (trackNewRow a waId er (some c)) db
  | none =>
    upsertByKey (weKey waId er.eventId) (trackDefaults waId er a.now)
      (trackNewRow a waId er none) db

/-- Translation of the `track_send` view (webhooks.py): token check, JSON
check, identity normalization, registration resolution (explicit id, else the
most recently created registration of the event), then the keyed upsert. -/
def track_send (a : TrackArgs) (db : Db) : TrackResult × Db :=
  if pyStrip a.secret = "" ∨ pyStrip a.header ≠ pyStrip a.secret then (.forbidden, db)
  else if a.jsonOk = false then (.badRequest "invalid json", db)
  else
    let waId := norm_digits a.body.waId
    match orNone a.body.eventId with
    | none => (.badRequest "missing wa_id or event_id", db)
    | some eid =>
      if waId = "" then (.badRequest "missing wa_id or event_id", db)
      else
        match orNone a.body.eventRegistrationId with
        | some rid =>
          match db.regs.find? (fun r => r.id == rid) with
          | none => (.badRequest "registration not found", db)
          | some er => trackUpsert a waId er db
        | none =>
          match latestReg (db.regs.filter (fun r => r.eventId == eid)) with
          | none => (.badRequest "could not resolve registration", db)
          | some er => trackUpsert a waId er db

/-- Body of the RSVP webhook (`whatsapp_rsvp`).  `respondedOn` models the raw
`responded_on` field together with the outcome of Django's `parse_datetime` on
it: `none` is an absent (or falsy) field, `some none` a present but unparsable
value, `some (some d)` a parsed datetime. -/
structure RsvpBody where
  rsvpStatus : String
  respondedOn : Option (Option PyDateTime)
  eventRegistrationId : Option String
  waId : String
  templateWamid : Option String
  eventId : Option String
deriving DecidableEq

/-- Request-level inputs of `whatsapp_rsvp`. -/
structure RsvpArgs where
  secret : String
  header : String
  jsonOk : Bool
  body : RsvpBody
  now : Int
deriving DecidableEq

/-- Responses of `whatsapp_rsvp`, by HTTP class.  `serverError` is an
exception escaping the view (Django's 500 handler). -/
inductive RsvpResult where
  | forbidden
  | badRequest (reason : String)
  | serverError (reason : String)
  | ok (regId eventId guestId rsvpStatus : String) (respondedOn : Option PyDateTime)
deriving DecidableEq

/-- The message published to the per-event channel group after a successful
RSVP mutation. -/
structure PublishMsg where
  channel : String
  handlerType : String
  dataType : String
  action : String
  regId : String
  regEvent : String
  rsvpStatus : String
  estimatedPax : Option Nat
  additionalGuestCount : Option Nat
deriving DecidableEq

/-- The accepted RSVP statuses. -/
def validStatuses : List String := ["yes", "no", "maybe"]

/-- The `responded_on` computation of `whatsapp_rsvp`: absent or unparsable
falls back to the current UTC time, a parsed naive datetime is made aware in
UTC. -/
def rsvpRespondedOn (b : RsvpBody) (now : Int) : PyDateTime :=
  match b.respondedOn with
  | none => { t := now, aware := true }
  | some none => { t := now, aware := true }
  | some (some d) => ensure_aware d

/-- The `base_qs` predicate of `whatsapp_rsvp`: mappings for the normalized
identity whose expiry is strictly in the future. -/
def livePred (waId : String) (now : Int) (m : WaSendMap) : Bool :=
  m.waId == waId && decide (now < m.expiresAt)

/-- The mapping-based choice of a registration id in `whatsapp_rsvp`
(lines 160-191): priority 1 filters the live candidate set by correlator and
takes `.first()` (smallest pk); priority 2, only when that yielded nothing and
an event id is given, takes the most recently created candidate of that event;
priority 3 takes the most recently created candidate overall. -/
def rsvpChoose (waId : String) (wamid eid : Option String) (now : Int)
    (maps : List WaSendMap) : Option String :=
  let baseQs := maps.filter (livePred waId now)
  let r1 : Option String :=
    match wamid with
    | some c =>
      (firstByPk (baseQs.filter (fun m => m.templateWamid == some c))).map
        (fun m => m.eventRegistration)
    | none => none
  match r1 with
  | some rid => some rid
  | none =>
    let r2 : Option String :=
      match eid with
      | some e =>
        (latestMap (baseQs.filter (fun m => m.eventId == e))).map
          (fun m => m.eventRegistration)
      | none => none
    match r2 with
    | some rid => some rid
    | none => (latestMap baseQs).map (fun m => m.eventRegistration)

/-- `EventRegistration.objects.get(pk=rid)` on a registration id taken from a
mapping: a missing row raises `DoesNotExist`, which no handler catches. -/
def lookupReg (db : Db) (rid : String) : Except RsvpResult EventRegistration :=
  match db.regs.find? (fun r => r.id == rid) with
  | some er => .ok er
  | none => .error (.serverError "registration lookup failed")

/-- The registration-resolution block of `whatsapp_rsvp` (lines 144-194):
an explicit registration id is authoritative; otherwise the identity is
required and the mapping-based choice applies. -/
def rsvpResolve (b : RsvpBody) (now : Int) (db : Db) :
    Except RsvpResult EventRegistration :=
  match orNone b.eventRegistrationId with
  | some rid =>
    match db.regs.find? (fun r => r.id == rid) with
    | some er => .ok er
    | none => .error (.badRequest "registration not found")
  | none =>
    let waId := norm_digits b.waId
    if waId = "" then .error (.badRequest "missing wa_id")
    else
      match rsvpChoose waId (orNone b.templateWamid) (orNone b.eventId) now db.maps with
      | some rid => lookupReg db rid
      | none => .error (.badRequest "no mapping found for wa_id")

/-- The consume filter of `whatsapp_rsvp` (lines 232-238): among the resolved
registration's mappings, narrow by the most specific of correlator /
(identity plus event) / identity alone. -/
def consumeFilter (waId : String) (wamid eid : Option String)
    (m : WaSendMap) : Bool :=
  match wamid with
  | some c => m.templateWamid == some c
  | none =>
    match eid with
    | some e => if waId = "" then true else m.waId == waId && m.eventId == e
    | none => if waId = "" then true else m.waId == waId

/-- The `qs.update(consumed_at=now)` step: set the consumption timestamp on
every mapping of the registration passing the consume filter. -/
def consumeMaps (b : RsvpBody) (regId : String) (now : Int)
    (maps : List WaSendMap) : List WaSendMap :=
  maps.map
    (fun m =>
      if m.eventRegistration == regId &&
         consumeFilter (norm_digits b.waId) (orNone b.templateWamid) (orNone b.eventId) m
      then { m with consumedAt := some now } else m)

/-- The `group_send` payload of `whatsapp_rsvp` (lines 205-224). -/
def mkPublishMsg (er : EventRegistration) : PublishMsg :=
  { channel := "event_" ++ er.eventId, handlerType := "rsvp_update",
    dataType := "rsvp_changed", action := "updated", regId := er.id,
    regEvent := er.eventId, rsvpStatus := er.rsvpStatus,
    estimatedPax := er.estimatedPax,
    additionalGuestCount := er.additionalGuestCount }

/-- The early-return part of the `whatsapp_rsvp` view (webhooks.py): token
check, JSON check, status validation, registration resolution.  Collapsing
the early returns into one `Except` value preserves the view's behaviour
exactly (each error return carries the response and leaves the store
untouched). -/
def rsvpPrefix (a : RsvpArgs) (db : Db) : Except RsvpResult EventRegistration :=
  if pyStrip a.secret = "" ∨ pyStrip a.header ≠ pyStrip a.secret then .error .forbidden
  else if a.jsonOk = false then .error (.badRequest "invalid json")
  else if validStatuses.contains (pyLower (pyStrip a.body.rsvpStatus)) = false then
    .error (.badRequest "invalid rsvp_status")
  else rsvpResolve a.body a.now db

/-- The saved registration: status and response timestamp updated together
(`save(update_fields=["rsvp_status", "responded_on"])`). -/
def rsvpSavedReg (a : RsvpArgs) (er : EventRegistration) : EventRegistration :=
  { er with rsvpStatus := pyLower (pyStrip a.body.rsvpStatus),
            respondedOn := some (rsvpRespondedOn a.body a.now) }

/-- Translation of the `whatsapp_rsvp` view (webhooks.py).  `publishOk` is the
channel-layer oracle: the publish call has no exception guard, so a failing
publish escapes the view after the mutation was saved.  `consumeOk` is the
oracle for the consume step, whose failure is caught and swallowed. -/
def whatsapp_rsvp (a : RsvpArgs) (publishOk consumeOk : Bool) (db : Db) :
    RsvpResult × Db × List PublishMsg :=
  match rsvpPrefix a db with
  | .error r => (r, db, [])
  | .ok er =>
    let er' := rsvpSavedReg a er
    let db1 : Db := { db with regs := db.regs.map (fun r => if r.id == er.id then er' else r) }
    if publishOk = false then (.serverError "channel publish failed", db1, [])
    else
      let db2 : Db :=
        if consumeOk then { db1 with maps := consumeMaps a.body er'.id a.now db1.maps }
        else db1
      (.ok er'.id er'.eventId er'.guestId er'.rsvpStatus er'.respondedOn, db2, [mkPublishMsg er'])

/-- Outcome of a call to an external collaborator that returns a provider
message id or raises. -/
inductive CallResult where
  | ok (value : String)
  | fail (msg : String)
deriving DecidableEq

/-- The registration as seen by the outbound send orchestrator
(`select_related("guest", "event")`): its guest's phone and name are inlined. -/
structure SendReg where
  id : String
  eventId : String
  guestPhone : Option String
  guestName : Option String
  respondedOn : Option PyDateTime
deriving DecidableEq

/-- A persisted `QueuedMessage` row (fields of the `create` call). -/
structure QueuedMessage where
  eventId : String
  registrationId : String
  templateId : String
  renderedText : String
deriving DecidableEq

/-- Observable side effects of the orchestrator, in program order.
`persistQueued` is a successful queue insert; the `attempt` effects are calls
into the outbound channel client. -/
inductive SendEffect where
  | persistQueued (q : QueuedMessage)
  | attemptFreeform (toAddr text : String)
  | attemptOpener (toAddr regId : String)
deriving DecidableEq

/-- Request-level inputs of `SendLocalTemplateView.post` after the two
`get_object_or_404` lookups succeeded: the registration, the template id, and
the oracles for rendering, the queue insert (`none` = success, `some e` =
raised), the free-form send and the opener send. -/
structure SendArgs where
  reg : SendReg
  templateId : String
  renderResult : CallResult
  now : Int
  queueResult : Option String
  freeformResult : CallResult
  openerResult : CallResult
deriving DecidableEq

/-- Responses of `SendLocalTemplateView.post`, by HTTP class. -/
inductive SendTemplateResult where
  | renderFailed (e : String)
  | noPhone
  | sent (messageId : String)
  | sendFailed (e : String)
  | queueFailed (e : String)
  | queued (openerMessageId : String)
  | openerFailed (e : String)
deriving DecidableEq

/-- HTTP status of each orchestrator response (send_template.py). -/
def SendTemplateResult.httpStatus : SendTemplateResult → Nat
  | .renderFailed _ => 400
  | .noPhone => 400
  | .sent _ => 200
  | .sendFailed _ => 502
  | .queueFailed _ => 500
  | .queued _ => 200
  | .openerFailed _ => 502

/-- Modelled from the spec: `within_24h_window` lives in
`MessageTemplates/services/whatsapp.py`, which is not among the provided
sources; the messaging-window decider section of the specification defines it
as true iff the last inbound time is non-null and less than 24 hours old. -/
def within_24h_window (now : Int) (lastInbound : Option PyDateTime) : Bool :=
  match lastInbound with
  | none => false
  | some d => decide (now - d.t < hours24)

/-- Translation of `SendLocalTemplateView.post` (send_template.py) after the
object lookups: render, require a phone, then either send free-form (inside
the 24h window) or persist a `QueuedMessage` and send the re-engagement
opener.  The effect trace records persisted rows and channel calls in program
order. -/
def sendLocalTemplate (a : SendArgs) : SendTemplateResult × List SendEffect :=
  match a.renderResult with
  | .fail e => (.renderFailed e, [])
  | .ok text =>
    match orNone a.reg.guestPhone with
    | none => (.noPhone, [])
    | some toAddr =>
      if within_24h_window a.now a.reg.respondedOn then
        match a.freeformResult with
        | .ok mid => (.sent mid, [.attemptFreeform toAddr text])
        | .fail e => (.sendFailed e, [.attemptFreeform toAddr text])
      else
        match a.queueResult with
        | some e => (.queueFailed e, [])
        | none =>
          let q : QueuedMessage :=
            { eventId := a.reg.eventId, registrationId := a.reg.id,
              templateId := a.templateId, renderedText := text }
          match a.openerResult with
          | .ok oid => (.queued oid, [.persistQueued q, .attemptOpener toAddr a.reg.id])
          | .fail e => (.openerFailed e, [.persistQueued q, .attemptOpener toAddr a.reg.id])

/-- The resolution procedure exactly as the specification words it: build the
candidate set (live mappings of the identity); priority 1 resolves only when
the correlator filter has exactly one match; priority 2 and 3 as in the code.
This is the claim-side definition used to compare against `rsvpChoose`. -/
def claimChoose (waId : String) (wamid eid : Option String) (now : Int)
    (maps : List WaSendMap) : Option String :=
  let candidates := maps.filter (livePred waId now)
  let p1 : Option String :=
    match wamid with
    | some c =>
      match candidates.filter (fun m => m.templateWamid == some c) with
      | [m] => some m.eventRegistration
      | _ => none
    | none => none
  match p1 with
  | some rid => some rid
  | none =>
    let p2 : Option String :=
      match eid with
      | some e =>
        (latestMap (candidates.filter (fun m => m.eventId == e))).map
          (fun m => m.eventRegistration)
      | none => none
    match p2 with
    | some rid => some rid
    | none => (latestMap candidates).map (fun m => m.eventRegistration)

/-- The store-wide uniqueness the keyed upsert maintains, counting expired
rows as well: at most one row per correlator, and at most one correlator-free
row per (identity, event) pair. -/
def strongInv (ms : List WaSendMap) : Prop :=
  (∀ c, (ms.filter (corrKey c)).length ≤ 1) ∧
  (∀ w e, (ms.filter (plainKey w e)).length ≤ 1)

/-- The invariant as the specification states it, restricted to live
(non-expired) rows at a given instant. -/
def liveInv (now : Int) (ms : List WaSendMap) : Prop :=
  (∀ c, (ms.filter (fun m => corrKey c m && decide (now < m.expiresAt))).length ≤ 1) ∧
  (∀ w e, (ms.filter (fun m => plainKey w e m && decide (now < m.expiresAt))).length ≤ 1)

/-- Mapping stores reachable by this core: the empty store, closed under the
two webhooks (registrations are created outside the core and may be
arbitrary at each step). -/
inductive MapsReachable : List WaSendMap → Prop where
  | nil : MapsReachable []
  | track (a : TrackArgs) (regs : List EventRegistration) (ms : List WaSendMap) :
      MapsReachable ms → MapsReachable (track_send a { regs := regs, maps := ms }).2.maps
  | rsvp (a : RsvpArgs) (p c : Bool) (regs : List EventRegistration)
      (ms : List WaSendMap) :
      MapsReachable ms → MapsReachable (whatsapp_rsvp a p c { regs := regs, maps := ms }).2.1.maps

section Helpers

variable {α : Type}

theorem length_filter_filter_le (p q : α → Bool) (l : List α) :
    ((l.filter p).filter q).length ≤ (l.filter q).length := by
  induction l with
  | nil => simp
  | cons a l ih =>
    rw [List.filter_cons]
    by_cases hp : p a = true
    · rw [if_pos hp, List.filter_cons, List.filter_cons]
      by_cases hq : q a = true
      · rw [if_pos hq, if_pos hq]
        simpa using Nat.succ_le_succ ih
      · rw [if_neg hq, if_neg hq]
        exact ih
    · rw [if_neg hp, List.filter_cons]
      by_cases hq : q a = true
      · rw [if_pos hq]
        exact Nat.le_trans ih (by simp)
      · rw [if_neg hq]
        exact ih

theorem length_le_one_cases (l : List α) (h : l.length ≤ 1) :
    l = [] ∨ ∃ a, l = [a] := by
  match l with
  | [] => exact Or.inl rfl
  | [a] => exact Or.inr ⟨a, rfl⟩
  | a :: b :: t => simp at h

theorem filter_nil_of_imp (p q : α → Bool) (h : ∀ a, q a = true → p a = true)
    (l : List α) (hl : l.filter p = []) : l.filter q = [] := by
  rw [List.filter_eq_nil_iff] at hl ⊢
  intro a ha hq
  exact hl a ha (h a hq)

theorem filter_map_single (k q : α → Bool) (f : α → α)
    (hkq : ∀ a, q a = true → k a = true)
    (hf : ∀ a, k a = false → f a = a)
    (m0 : α) (hq : q (f m0) = true) :
    ∀ l : List α, l.filter k = [m0] → (l.map f).filter q = [f m0] := by
  intro l
  induction l with
  | nil => intro h; exact absurd h (by simp)
  | cons a l ih =>
    intro h
    rw [List.filter_cons] at h
    by_cases hk : k a = true
    · rw [if_pos hk] at h
      injection h with h1 h2
      subst h1
      have htail : (l.map f).filter q = [] := by
        rw [List.filter_eq_nil_iff]
        intro b hb hqb
        obtain ⟨x, hx, rfl⟩ := List.mem_map.mp hb
        have hkx : ¬ k x = true := List.filter_eq_nil_iff.mp h2 x hx
        have hkx' : k x = false := by
          cases hc : k x
          · rfl
          · exact absurd hc hkx
        rw [hf x hkx'] at hqb
        exact hkx (hkq x hqb)
      rw [List.map_cons, List.filter_cons, if_pos hq, htail]
    · have hk' : k a = false := by
        cases hc : k a
        · rfl
        · exact absurd hc hk
      rw [if_neg hk] at h
      have hqa : ¬ q (f a) = true := by
        rw [hf a hk']
        intro hc
        exact hk (hkq a hc)
      rw [List.map_cons, List.filter_cons, if_neg hqa]
      exact ih h

theorem length_filter_map_eq (f : α → α) (p : α → Bool)
    (h : ∀ a, p (f a) = p a) (l : List α) :
    ((l.map f).filter p).length = (l.filter p).length := by
  induction l with
  | nil => rfl
  | cons a l ih =>
    rw [List.map_cons, List.filter_cons, List.filter_cons, h a]
    by_cases hp : p a = true <;> simp [hp, ih]

end Helpers

/-- C10: for both webhooks, an unset or blank shared secret forbids every
request regardless of the supplied header token — an empty header never
matches an empty secret — and the rejection happens before the body is
consulted, leaving the store untouched and publishing nothing. -/
theorem c10_empty_secret_rejects (ta : TrackArgs) (ra : RsvpArgs)
    (p c : Bool) (db1 db2 : Db)
    (h1 : pyStrip ta.secret = "") (h2 : pyStrip ra.secret = "") :
    track_send ta db1 = (.forbidden, db1) ∧
    whatsapp_rsvp ra p c db2 = (.forbidden, db2, []) := by
  constructor
  · unfold track_send
    simp [h1]
  · have hpre : rsvpPrefix ra db2 = .error .forbidden := by
      unfold rsvpPrefix
      simp [h2]
    unfold whatsapp_rsvp
    simp [hpre]

/-- Witness for C10 at a concrete request carrying a non-empty header token
against an empty configured secret. -/
theorem c10_empty_secret_rejects_witness :
    track_send ⟨"", "token", true, ⟨"15551234567", some "E1", none, none⟩, 0, "M1"⟩
        ⟨[], []⟩ = (.forbidden, ⟨[], []⟩) ∧
    whatsapp_rsvp ⟨"", "token", true, ⟨"yes", none, none, "15551234567", none, some "E1"⟩, 0⟩
        true true ⟨[], []⟩ = (.forbidden, ⟨[], []⟩, []) :=
  c10_empty_secret_rejects _ _ true true _ _ (by decide) (by decide)

/-- The resolution block only errors with client or server error payloads,
never with a success payload. -/
theorem rsvpResolve_error_not_ok (b : RsvpBody) (now : Int) (db : Db)
    (i e g s : String) (t : Option PyDateTime) :
    rsvpResolve b now db ≠ .error (.ok i e g s t) := by
  intro h
  unfold rsvpResolve lookupReg at h
  split at h
  · split at h <;> simp_all
  · by_cases hw : norm_digits b.waId = ""
    · rw [if_pos hw] at h
      exact absurd h (by simp)
    · rw [if_neg hw] at h
      split at h
      · split at h <;> simp_all
      · simp_all

/-- The early-return pipeline only errors with forbidden, client or server
payloads, never with a success payload. -/
theorem rsvpPrefix_error_not_ok (a : RsvpArgs) (db : Db)
    (i e g s : String) (t : Option PyDateTime) :
    rsvpPrefix a db ≠ .error (.ok i e g s t) := by
  intro h
  unfold rsvpPrefix at h
  split at h
  · exact absurd h (by simp)
  · split at h
    · exact absurd h (by simp)
    · split at h
      · exact absurd h (by simp)
      · exact rsvpResolve_error_not_ok _ _ _ i e g s t h

/-- C5: under valid auth and JSON, a (normalized) status outside yes/no/maybe
fails with the validation error before any mutation or publish; the computed
`responded_on` is always timezone-aware, defaults to the current time when the
field is absent or unparsable, and interprets a parsed datetime as UTC
(attaching UTC to a naive one); a successful response carries exactly that
timestamp. -/
theorem c5_status_validation_and_timestamp (a : RsvpArgs) (p c : Bool) (db : Db)
    (h1 : pyStrip a.secret ≠ "") (h2 : pyStrip a.header = pyStrip a.secret)
    (h3 : a.jsonOk = true) :
    (validStatuses.contains (pyLower (pyStrip a.body.rsvpStatus)) = false →
      whatsapp_rsvp a p c db = (.badRequest "invalid rsvp_status", db, [])) ∧
    (rsvpRespondedOn a.body a.now).aware = true ∧
    (a.body.respondedOn = none → rsvpRespondedOn a.body a.now = ⟨a.now, true⟩) ∧
    (a.body.respondedOn = some none → rsvpRespondedOn a.body a.now = ⟨a.now, true⟩) ∧
    (∀ d, a.body.respondedOn = some (some d) →
      rsvpRespondedOn a.body a.now = ⟨d.t, true⟩) ∧
    (∀ i e g s t, (whatsapp_rsvp a p c db).1 = .ok i e g s t →
      t = some (rsvpRespondedOn a.body a.now)) := by
  refine ⟨?_, ?_, ?_, ?_, ?_, ?_⟩
  · intro hbad
    have hpre : rsvpPrefix a db = .error (.badRequest "invalid rsvp_status") := by
      unfold rsvpPrefix
      rw [if_neg (by simp [h1, h2]), if_neg (by simp [h3]), if_pos hbad]
    unfold whatsapp_rsvp
    simp [hpre]
  · unfold rsvpRespondedOn ensure_aware
    rcases a.body.respondedOn with _ | (_ | d)
    · rfl
    · rfl
    · by_cases hd : d.aware = true <;> cases d <;> simp_all
  · intro h
    unfold rsvpRespondedOn
    rw [h]
  · intro h
    unfold rsvpRespondedOn
    rw [h]
  · intro d h
    unfold rsvpRespondedOn ensure_aware
    rw [h]
    by_cases hd : d.aware = true <;> cases d <;> simp_all
  · intro i e g s t hok
    unfold whatsapp_rsvp at hok
    cases hpre : rsvpPrefix a db with
    | error r =>
      rw [hpre] at hok
      simp at hok
      exact absurd (hok ▸ hpre) (rsvpPrefix_error_not_ok a db i e g s t)
    | ok er =>
      rw [hpre] at hok
      by_cases hp : p = false
      · simp [hp] at hok
      · simp [hp, rsvpSavedReg] at hok
        exact hok.2.2.2.2.symm

/-- Witness for C5 at a concrete request with an invalid status. -/
theorem c5_status_validation_and_timestamp_witness :
    whatsapp_rsvp ⟨"s", "s", true, ⟨"nah", none, none, "1", none, none⟩, 0⟩
        true true ⟨[], []⟩ =
      (.badRequest "invalid rsvp_status", ⟨[], []⟩, []) :=
  (c5_status_validation_and_timestamp _ true true _ (by decide) (by decide)
    (by decide)).1 (by decide)

/-- C3: with a rendered text and a recipient phone, (a) outside the 24-hour
window a failing queue insert yields the server-class 500 response with no
effect (nothing persisted, nothing sent); (b) outside the window with a
successful queue insert, the rendered `QueuedMessage` is persisted before the
opener send is attempted, and an opener failure yields the gateway-class 502
response while the persisted row remains in the trace; (c) inside the window a
free-form send failure yields the gateway-class 502 response and nothing is
persisted. -/
theorem c3_window_queue_orchestration (a : SendArgs) (text toAddr : String)
    (hr : a.renderResult = .ok text)
    (hp : orNone a.reg.guestPhone = some toAddr) :
    (within_24h_window a.now a.reg.respondedOn = false →
      (∀ e, a.queueResult = some e →
        sendLocalTemplate a = (.queueFailed e, []) ∧
        (SendTemplateResult.queueFailed e).httpStatus = 500) ∧
      (a.queueResult = none →
        (∀ oid, a.openerResult = .ok oid →
          sendLocalTemplate a =
            (.queued oid,
             [.persistQueued ⟨a.reg.eventId, a.reg.id, a.templateId, text⟩,
              .attemptOpener toAddr a.reg.id])) ∧
        (∀ e, a.openerResult = .fail e →
          sendLocalTemplate a =
            (.openerFailed e,
             [.persistQueued ⟨a.reg.eventId, a.reg.id, a.templateId, text⟩,
              .attemptOpener toAddr a.reg.id]) ∧
          (SendTemplateResult.openerFailed e).httpStatus = 502))) ∧
    (within_24h_window a.now a.reg.respondedOn = true →
      ∀ e, a.freeformResult = .fail e →
        sendLocalTemplate a = (.sendFailed e, [.attemptFreeform toAddr text]) ∧
        (SendTemplateResult.sendFailed e).httpStatus = 502) := by
  constructor
  · intro hw
    constructor
    · intro e he
      refine ⟨?_, rfl⟩
      unfold sendLocalTemplate
      rw [hr, hp, hw]
      simp [he]
    · intro hq
      constructor
      · intro oid ho
        unfold sendLocalTemplate
        rw [hr, hp, hw]
        simp [hq, ho]
      · intro e ho
        refine ⟨?_, rfl⟩
        unfold sendLocalTemplate
        rw [hr, hp, hw]
        simp [hq, ho]
  · intro hw e hf
    refine ⟨?_, rfl⟩
    unfold sendLocalTemplate
    rw [hr, hp, hw]
    simp [hf]

/-- Witness for C3 at a concrete out-of-window request whose opener send
fails: the queued row persists and the response is the 502 `opener_failed`. -/
theorem c3_window_queue_orchestration_witness :
    sendLocalTemplate
        ⟨⟨"R1", "E1", some "15551234567", some "Ada", some ⟨0, true⟩⟩, "T1",
         .ok "hello", 2 * 86400, none, .ok "mf", .fail "boom"⟩ =
      (.openerFailed "boom",
       [.persistQueued ⟨"E1", "R1", "T1", "hello"⟩,
        .attemptOpener "15551234567" "R1"]) ∧
    (SendTemplateResult.openerFailed "boom").httpStatus = 502 :=
  (((c3_window_queue_orchestration _ "hello" "15551234567" (by decide)
      (by decide)).1 (by decide)).2 (by decide)).2 "boom" (by decide)

/-- Concrete store for the publish-failure scenario: one registration,
resolved explicitly. -/
def c4Db : Db :=
  { regs := [{ id := "R1", eventId := "E1", guestId := "G1", rsvpStatus := "unset",
               respondedOn := none, createdAt := 0, estimatedPax := some 2,
               additionalGuestCount := some 1 }],
    maps := [] }

/-- Concrete RSVP request for the publish-failure scenario. -/
def c4Args : RsvpArgs :=
  ⟨"s", "s", true, ⟨"yes", none, some "R1", "", none, none⟩, 7⟩

/-- C4: the channel publish is *not* guarded — on a valid RSVP request whose
channel publish raises, the exception escapes the view (server error) even
though the RSVP mutation was already saved, so the webhook does not return
success; when the publish succeeds, the notification goes to the per-event
channel `event_<event_id>` with action `updated` and the registration's id,
event, status and party-size fields. -/
theorem c4_publish_failure_fails_request :
    (whatsapp_rsvp c4Args false true c4Db).1 = .serverError "channel publish failed" ∧
    (whatsapp_rsvp c4Args false true c4Db).2.1.regs ≠ c4Db.regs ∧
    (whatsapp_rsvp c4Args false true c4Db).2.1.regs =
      [{ id := "R1", eventId := "E1", guestId := "G1", rsvpStatus := "yes",
         respondedOn := some ⟨7, true⟩, createdAt := 0, estimatedPax := some 2,
         additionalGuestCount := some 1 }] ∧
    (whatsapp_rsvp c4Args true true c4Db).2.2 =
      [{ channel := "event_E1", handlerType := "rsvp_update",
         dataType := "rsvp_changed", action := "updated", regId := "R1",
         regEvent := "E1", rsvpStatus := "yes", estimatedPax := some 2,
         additionalGuestCount := some 1 }] := by
  refine ⟨by decide, by decide, by decide, by decide⟩

/-- A pairwise-distinct-correlators store has at most one row per correlator. -/
theorem corrUnique_of_pairwise (maps : List WaSendMap)
    (h : maps.Pairwise (fun m1 m2 =>
      m1.templateWamid = none ∨ m1.templateWamid ≠ m2.templateWamid)) :
    ∀ c, (maps.filter (fun m => m.templateWamid == some c)).length ≤ 1 := by
  intro c
  induction maps with
  | nil => simp
  | cons a l ih =>
    rcases List.pairwise_cons.mp h with ⟨ha, hl⟩
    rw [List.filter_cons]
    by_cases hc : (a.templateWamid == some c) = true
    · rw [if_pos hc]
      have hac : a.templateWamid = some c := by simpa using hc
      have hnil : l.filter (fun m => m.templateWamid == some c) = [] := by
        rw [List.filter_eq_nil_iff]
        intro b hb hbc
        have hbc' : b.templateWamid = some c := by simpa using hbc
        rcases ha b hb with h0 | h0
        · rw [h0] at hac
          exact Option.noConfusion hac
        · exact h0 (hac.trans hbc'.symm)
      rw [hnil]
      simp
    · rw [if_neg hc]
      exact ih hl

/-- C1: on any store satisfying the at-most-one-row-per-correlator invariant
(which the keyed upsert maintains), the mapping-based resolution of the RSVP
webhook follows exactly the claimed priority order: correlator match first
(where "at least one match" and "exactly one match" coincide under the
invariant), then most-recent mapping of the given event, then most-recent
mapping overall. -/
theorem c1_resolution_priority_order (waId : String) (wamid eid : Option String)
    (now : Int) (maps : List WaSendMap)
    (hinv : ∀ c, (maps.filter (fun m => m.templateWamid == some c)).length ≤ 1) :
    rsvpChoose waId wamid eid now maps = claimChoose waId wamid eid now maps := by
  cases wamid with
  | none => rfl
  | some c =>
    have hlen : ((maps.filter (livePred waId now)).filter
        (fun m => m.templateWamid == some c)).length ≤ 1 :=
      Nat.le_trans (length_filter_filter_le _ _ _) (hinv c)
    rcases length_le_one_cases _ hlen with hF | ⟨m, hF⟩
    · unfold rsvpChoose claimChoose
      simp only [hF]
      rfl
    · unfold rsvpChoose claimChoose
      simp only [hF]
      rfl

/-- Witness for C1 at a concrete two-mapping store (one correlator-bearing
row, one plain row), where the correlator priority resolves. -/
theorem c1_resolution_priority_order_witness :
    rsvpChoose "777" (some "corr1") (some "E2") 5
        [⟨"MA", "777", "E1", "R1", some "corr1", 0, 99, none⟩,
         ⟨"MB", "777", "E2", "R2", none, 3, 99, none⟩] =
      claimChoose "777" (some "corr1") (some "E2") 5
        [⟨"MA", "777", "E1", "R1", some "corr1", 0, 99, none⟩,
         ⟨"MB", "777", "E2", "R2", none, 3, 99, none⟩] :=
  c1_resolution_priority_order _ _ _ _ _
    (corrUnique_of_pairwise _ (by decide))

/-- With no live mapping for the identity, every priority yields nothing. -/
theorem rsvpChoose_none_of_no_candidates (waId : String) (wamid eid : Option String)
    (now : Int) (maps : List WaSendMap)
    (h : maps.filter (livePred waId now) = []) :
    rsvpChoose waId wamid eid now maps = none := by
  unfold rsvpChoose
  simp only [h]
  cases wamid <;> cases eid <;> rfl

/-- C8: under valid auth, JSON and status: a supplied (truthy)
`event_registration_id` is resolved directly and a missing row fails with the
not-found client error whatever mappings exist (no mapping fallback); without
it, an identity that normalizes to empty fails with the missing-identity
client error, and a live-candidate set that is empty (so all three priorities
are exhausted) fails with the no-mapping client error.  In each case the
store is untouched and nothing is published. -/
theorem c8_explicit_id_and_error_paths (a : RsvpArgs) (p c : Bool) (db : Db)
    (h1 : pyStrip a.secret ≠ "") (h2 : pyStrip a.header = pyStrip a.secret)
    (h3 : a.jsonOk = true)
    (h4 : validStatuses.contains (pyLower (pyStrip a.body.rsvpStatus)) = true) :
    (∀ rid, orNone a.body.eventRegistrationId = some rid →
      db.regs.find? (fun r => r.id == rid) = none →
      whatsapp_rsvp a p c db = (.badRequest "registration not found", db, [])) ∧
    (orNone a.body.eventRegistrationId = none →
      (norm_digits a.body.waId = "" →
        whatsapp_rsvp a p c db = (.badRequest "missing wa_id", db, [])) ∧
      (norm_digits a.body.waId ≠ "" →
        db.maps.filter (livePred (norm_digits a.body.waId) a.now) = [] →
        whatsapp_rsvp a p c db = (.badRequest "no mapping found for wa_id", db, []))) := by
  have hmem : pyLower (pyStrip a.body.rsvpStatus) ∈ validStatuses := by simpa using h4
  refine ⟨?_, ?_⟩
  · intro rid hr hf
    have hres : rsvpResolve a.body a.now db = .error (.badRequest "registration not found") := by
      unfold rsvpResolve
      rw [hr]
      simp [hf]
    have hpre : rsvpPrefix a db = .error (.badRequest "registration not found") := by
      unfold rsvpPrefix
      rw [if_neg (by simp [h1, h2]), if_neg (by simp [h3]), if_neg (by simp [hmem]), hres]
    unfold whatsapp_rsvp
    simp [hpre]
  · intro hnone
    constructor
    · intro hw
      have hres : rsvpResolve a.body a.now db = .error (.badRequest "missing wa_id") := by
        unfold rsvpResolve
        rw [hnone, if_pos hw]
      have hpre : rsvpPrefix a db = .error (.badRequest "missing wa_id") := by
        unfold rsvpPrefix
        rw [if_neg (by simp [h1, h2]), if_neg (by simp [h3]), if_neg (by simp [hmem]), hres]
      unfold whatsapp_rsvp
      simp [hpre]
    · intro hw hcand
      have hres : rsvpResolve a.body a.now db = .error (.badRequest "no mapping found for wa_id") := by
        unfold rsvpResolve
        rw [hnone, if_neg hw, rsvpChoose_none_of_no_candidates _ _ _ _ _ hcand]
      have hpre : rsvpPrefix a db = .error (.badRequest "no mapping found for wa_id") := by
        unfold rsvpPrefix
        rw [if_neg (by simp [h1, h2]), if_neg (by simp [h3]), if_neg (by simp [hmem]), hres]
      unfold whatsapp_rsvp
      simp [hpre]

/-- Witness for C8 at a concrete request with an explicit registration id
that does not exist, over a store that does hold a live mapping. -/
theorem c8_explicit_id_and_error_paths_witness :
    whatsapp_rsvp ⟨"s", "s", true, ⟨"yes", none, some "RX", "777", none, none⟩, 1⟩
        true true ⟨[], [⟨"MA", "777", "E1", "R1", none, 0, 99, none⟩]⟩ =
      (.badRequest "registration not found", ⟨[], [⟨"MA", "777", "E1", "R1", none, 0, 99, none⟩]⟩, []) :=
  (c8_explicit_id_and_error_paths _ true true _ (by decide) (by decide) (by decide)
    (by decide)).1 "RX" (by decide) (by decide)

/-- C7: the consume step is best effort.  A failing consume step (oracle
`false`) never changes the response, the saved registrations or the published
notifications relative to a successful one, and leaves the mappings untouched;
on a successful RSVP response the mappings are exactly the pre-state with
`consumed_at` set on the rows of the resolved registration passing the
most-specific-key filter. -/
theorem c7_consume_swallowed (a : RsvpArgs) (p : Bool) (db : Db) :
    ((whatsapp_rsvp a p false db).1 = (whatsapp_rsvp a p true db).1) ∧
    ((whatsapp_rsvp a p false db).2.1.regs = (whatsapp_rsvp a p true db).2.1.regs) ∧
    ((whatsapp_rsvp a p false db).2.2 = (whatsapp_rsvp a p true db).2.2) ∧
    ((whatsapp_rsvp a p false db).2.1.maps = db.maps) ∧
    (∀ i e g s t, (whatsapp_rsvp a p true db).1 = .ok i e g s t →
      (whatsapp_rsvp a p true db).2.1.maps = consumeMaps a.body i a.now db.maps) := by
  cases hpre : rsvpPrefix a db with
  | error r =>
    unfold whatsapp_rsvp
    rw [hpre]
    refine ⟨rfl, rfl, rfl, rfl, ?_⟩
    intro i e g s t hok
    simp at hok
    exact absurd (hok ▸ hpre) (rsvpPrefix_error_not_ok a db i e g s t)
  | ok er =>
    unfold whatsapp_rsvp
    rw [hpre]
    by_cases hp : p = false
    · simp [hp]
    · have hp' : p = true := by
        cases p
        · exact absurd rfl hp
        · rfl
      subst hp'
      refine ⟨by simp, by simp, by simp, by simp, ?_⟩
      intro i e g s t hok
      simp at hok
      obtain ⟨hi, -, -, -, -⟩ := hok
      simp [hi]

/-- Witness for C7 at a concrete successful RSVP whose mapping is consumed. -/
theorem c7_consume_swallowed_witness :
    (whatsapp_rsvp ⟨"s", "s", true, ⟨"yes", none, none, "777", none, some "E1"⟩, 1⟩
        true true ⟨[⟨"R1", "E1", "G1", "unset", none, 0, none, none⟩],
                   [⟨"MA", "777", "E1", "R1", none, 0, 99, none⟩]⟩).2.1.maps =
      consumeMaps ⟨"yes", none, none, "777", none, some "E1"⟩ "R1" 1
        [⟨"MA", "777", "E1", "R1", none, 0, 99, none⟩] :=
  (c7_consume_swallowed ⟨"s", "s", true, ⟨"yes", none, none, "777", none, some "E1"⟩, 1⟩
      true ⟨[⟨"R1", "E1", "G1", "unset", none, 0, none, none⟩],
            [⟨"MA", "777", "E1", "R1", none, 0, 99, none⟩]⟩).2.2.2.2 "R1" "E1" "G1" "yes"
    (some ⟨1, true⟩) (by decide)

theorem length_filter_and_le {α : Type} (p q : α → Bool) (l : List α) :
    (l.filter (fun a => p a && q a)).length ≤ (l.filter p).length := by
  induction l with
  | nil => simp
  | cons a l ih =>
    rw [List.filter_cons, List.filter_cons]
    by_cases hp : p a = true
    · by_cases hq : q a = true
      · rw [if_pos (by simp [hp, hq]), if_pos hp]
        simpa using Nat.succ_le_succ ih
      · rw [if_neg (by simp [hq]), if_pos hp]
        exact Nat.le_trans ih (by simp)
    · rw [if_neg (by simp [hp]), if_neg hp]
      exact ih

theorem corrKey_trackDefaults (c w : String) (er : EventRegistration) (now : Int)
    (m : WaSendMap) : corrKey c (trackDefaults w er now m) = corrKey c m := rfl

/-- `trackDefaults` applied to a row already matching the plain lookup key
keeps all three `plainKey` components. -/
theorem plainKey_trackDefaults_of_weKey (w' e' w : String) (er : EventRegistration)
    (now : Int) (m : WaSendMap) (h : weKey w er.eventId m = true) :
    plainKey w' e' (trackDefaults w er now m) = plainKey w' e' m := by
  unfold weKey at h
  have hw : m.waId = w := by
    have := (Bool.and_eq_true _ _).mp h
    exact eq_of_beq this.1
  have he : m.eventId = er.eventId := by
    have := (Bool.and_eq_true _ _).mp h
    exact eq_of_beq this.2
  unfold plainKey trackDefaults
  rw [← hw, ← he]

/-- Any row matching a correlator has `plainKey` false, before and after the
correlator-keyed update. -/
theorem plainKey_trackDefaults_of_corrKey (w' e' c w : String) (er : EventRegistration)
    (now : Int) (m : WaSendMap) (h : corrKey c m = true) :
    plainKey w' e' (trackDefaults w er now m) = plainKey w' e' m := by
  unfold corrKey at h
  have hm : m.templateWamid = some c := by simpa using h
  unfold plainKey trackDefaults
  rw [hm]
  simp

/-- One scope of the uniqueness invariant survives an `upsertByKey`, provided
the update preserves the scope predicate and the new row either misses the
scope or the scope refines the lookup key. -/
theorem upsertByKey_length_le (key : WaSendMap → Bool) (upd : WaSendMap → WaSendMap)
    (newRow : WaSendMap) (db : Db) (p : WaSendMap → Bool)
    (h : (db.maps.filter p).length ≤ 1)
    (hupd : ∀ x, p (if key x then upd x else x) = p x)
    (hnew : p newRow = false ∨ ∀ m, p m = true → key m = true) :
    (((upsertByKey key upd newRow db).2.maps).filter p).length ≤ 1 := by
  unfold upsertByKey
  cases hF : db.maps.filter key with
  | nil =>
    show (((db.maps ++ [newRow]).filter p).length ≤ 1)
    rw [List.filter_append]
    rcases hnew with hfalse | himp
    · simp [hfalse]
      simpa using h
    · have h0 : db.maps.filter p = [] := filter_nil_of_imp key p himp _ hF
      rw [h0]
      cases hpn : p newRow <;> simp [hpn]
  | cons m0 tl =>
    cases tl with
    | nil =>
      show (((db.maps.map (fun x => if key x then upd x else x)).filter p).length ≤ 1)
      rw [length_filter_map_eq _ _ hupd]
      exact h
    | cons m1 tl' =>
      show ((db.maps.filter p).length ≤ 1)
      exact h

/-- The upsert of `track_send` preserves the store-wide uniqueness invariant. -/
theorem trackUpsert_maps_inv (a : TrackArgs) (waId : String)
    (er : EventRegistration) (db : Db) (h : strongInv db.maps) :
    strongInv (trackUpsert a waId er db).2.maps := by
  obtain ⟨hcorr, hplain⟩ := h
  unfold trackUpsert
  cases horn : orNone a.body.templateWamid with
  | some c =>
    show strongInv (upsertByKey (corrKey c) (trackDefaults waId er a.now)
      (trackNewRow a waId er (some c)) db).2.maps
    constructor
    · intro c'
      apply upsertByKey_length_le _ _ _ _ _ (hcorr c')
      · intro x
        by_cases hx : corrKey c x = true
        · rw [if_pos hx, corrKey_trackDefaults]
        · rw [if_neg hx]
      · by_cases hc : c' = c
        · subst hc
          right
          intro m hm
          exact hm
        · left
          unfold corrKey trackNewRow
          simp
          exact fun he => hc he.symm
    · intro w' e'
      apply upsertByKey_length_le _ _ _ _ _ (hplain w' e')
      · intro x
        by_cases hx : corrKey c x = true
        · rw [if_pos hx, plainKey_trackDefaults_of_corrKey _ _ _ _ _ _ _ hx]
        · rw [if_neg hx]
      · left
        unfold plainKey trackNewRow
        simp
  | none =>
    show strongInv (upsertByKey (weKey waId er.eventId) (trackDefaults waId er a.now)
      (trackNewRow a waId er none) db).2.maps
    constructor
    · intro c'
      apply upsertByKey_length_le _ _ _ _ _ (hcorr c')
      · intro x
        by_cases hx : weKey waId er.eventId x = true
        · rw [if_pos hx, corrKey_trackDefaults]
        · rw [if_neg hx]
      · left
        unfold corrKey trackNewRow
        simp
    · intro w' e'
      apply upsertByKey_length_le _ _ _ _ _ (hplain w' e')
      · intro x
        by_cases hx : weKey waId er.eventId x = true
        · rw [if_pos hx, plainKey_trackDefaults_of_weKey _ _ _ _ _ _ hx]
        · rw [if_neg hx]
      · by_cases hwe : w' = waId ∧ e' = er.eventId
        · obtain ⟨hw, he⟩ := hwe
          subst hw
          subst he
          right
          intro m hm
          unfold plainKey at hm
          unfold weKey
          rcases (Bool.and_eq_true _ _).mp hm with ⟨hm1, hm3⟩
          rcases (Bool.and_eq_true _ _).mp hm1 with ⟨_, hm2⟩
          rw [hm2, hm3]
          rfl
        · left
          unfold plainKey trackNewRow
          simp
          intro h2 h3
          exact hwe ⟨h2.symm, h3.symm⟩

/-- The whole send-tracking webhook preserves the uniqueness invariant. -/
theorem track_send_maps_inv (a : TrackArgs) (db : Db) (h : strongInv db.maps) :
    strongInv (track_send a db).2.maps := by
  unfold track_send
  repeat' split
  all_goals try exact h
  all_goals
    by_cases hw : norm_digits a.body.waId = "" <;>
      simp only [hw, if_true, if_false, ite_true, ite_false] <;>
      first
        | exact h
        | exact trackUpsert_maps_inv _ _ _ _ h

/-- Setting `consumed_at` never changes a row's correlator, identity or
event, so consumption preserves the uniqueness invariant. -/
theorem consumeMaps_inv (b : RsvpBody) (rid : String) (now : Int)
    (ms : List WaSendMap) (h : strongInv ms) :
    strongInv (consumeMaps b rid now ms) := by
  obtain ⟨hcorr, hplain⟩ := h
  unfold consumeMaps
  constructor
  · intro c
    have hpres : ∀ x, corrKey c
        ((fun m => if m.eventRegistration == rid &&
            consumeFilter (norm_digits b.waId) (orNone b.templateWamid) (orNone b.eventId) m
          then { m with consumedAt := some now } else m) x) = corrKey c x := by
      intro x
      show corrKey c (if x.eventRegistration == rid &&
          consumeFilter (norm_digits b.waId) (orNone b.templateWamid) (orNone b.eventId) x
        then { x with consumedAt := some now } else x) = corrKey c x
      by_cases hx : (x.eventRegistration == rid &&
          consumeFilter (norm_digits b.waId) (orNone b.templateWamid) (orNone b.eventId) x) = true
      · rw [if_pos hx]
        rfl
      · rw [if_neg hx]
    rw [length_filter_map_eq _ _ hpres]
    exact hcorr c
  · intro w e
    have hpres : ∀ x, plainKey w e
        ((fun m => if m.eventRegistration == rid &&
            consumeFilter (norm_digits b.waId) (orNone b.templateWamid) (orNone b.eventId) m
          then { m with consumedAt := some now } else m) x) = plainKey w e x := by
      intro x
      show plainKey w e (if x.eventRegistration == rid &&
          consumeFilter (norm_digits b.waId) (orNone b.templateWamid) (orNone b.eventId) x
        then { x with consumedAt := some now } else x) = plainKey w e x
      by_cases hx : (x.eventRegistration == rid &&
          consumeFilter (norm_digits b.waId) (orNone b.templateWamid) (orNone b.eventId) x) = true
      · rw [if_pos hx]
        rfl
      · rw [if_neg hx]
    rw [length_filter_map_eq _ _ hpres]
    exact hplain w e

/-- The RSVP webhook preserves the uniqueness invariant (its only mapping
write is the consumption update). -/
theorem whatsapp_rsvp_maps_inv (a : RsvpArgs) (p co : Bool) (db : Db)
    (h : strongInv db.maps) :
    strongInv (whatsapp_rsvp a p co db).2.1.maps := by
  unfold whatsapp_rsvp
  cases hpre : rsvpPrefix a db with
  | error r => exact h
  | ok er =>
    cases p
    · exact h
    · cases co
      · exact h
      · exact consumeMaps_inv _ _ _ _ h

theorem strongInv_nil : strongInv [] :=
  ⟨fun c => by simp, fun w e => by simp⟩

/-- Every mapping store this core can produce satisfies the store-wide
uniqueness invariant. -/
theorem reachable_strongInv (ms : List WaSendMap) (h : MapsReachable ms) :
    strongInv ms := by
  induction h with
  | nil => exact strongInv_nil
  | track a regs ms' _ ih => exact track_send_maps_inv _ _ ih
  | rsvp a p co regs ms' _ ih => exact whatsapp_rsvp_maps_inv _ _ _ _ ih

/-- The uniqueness invariant implies the live (non-expired) invariant at
every instant. -/
theorem liveInv_of_strongInv (ms : List WaSendMap) (h : strongInv ms)
    (now : Int) : liveInv now ms := by
  obtain ⟨hcorr, hplain⟩ := h
  constructor
  · intro c
    exact Nat.le_trans (length_filter_and_le (corrKey c) _ ms) (hcorr c)
  · intro w e
    exact Nat.le_trans (length_filter_and_le (plainKey w e) _ ms) (hplain w e)

/-- A successful `upsertByKey` leaves in the store a row with the returned
id that is either the fresh row or the update of the (unique) matched row. -/
theorem upsertByKey_ok (key : WaSendMap → Bool) (upd : WaSendMap → WaSendMap)
    (newRow : WaSendMap) (db : Db) (k : String) (db' : Db)
    (h : upsertByKey key upd newRow db = (.ok k, db'))
    (hupd_id : ∀ x, (upd x).id = x.id) :
    ∃ m, m ∈ db'.maps ∧ m.id = k ∧ (m = newRow ∨ ∃ m0, m = upd m0) := by
  unfold upsertByKey at h
  split at h
  · simp only [Prod.mk.injEq, TrackResult.ok.injEq] at h
    obtain ⟨hk, hdb⟩ := h
    refine ⟨newRow, ?_, hk, Or.inl rfl⟩
    rw [← hdb]
    simp
  · rename_i m heq
    simp only [Prod.mk.injEq, TrackResult.ok.injEq] at h
    obtain ⟨hk, hdb⟩ := h
    have hm_filter : m ∈ db.maps.filter key := by
      rw [heq]
      exact List.mem_singleton_self m
    have hm_mem : m ∈ db.maps := List.mem_of_mem_filter hm_filter
    have hm_key : key m = true := List.of_mem_filter hm_filter
    refine ⟨upd m, ?_, ?_, Or.inr ⟨m, rfl⟩⟩
    · rw [← hdb]
      exact List.mem_map.mpr ⟨m, hm_mem, by rw [if_pos hm_key]⟩
    · rw [hupd_id, hk]
  · exact absurd h (by simp)

/-- A successful `track_send` refreshes the affected row's expiry to 30 days
from the request time. -/
theorem track_send_ok_expiry (a : TrackArgs) (db : Db) (k : String) (db' : Db)
    (h : track_send a db = (.ok k, db')) :
    ∃ m, m ∈ db'.maps ∧ m.id = k ∧ m.expiresAt = a.now + thirtyDays := by
  unfold track_send at h
  repeat' split at h
  all_goals
    by_cases hw : norm_digits a.body.waId = "" <;> simp [hw] at h
  all_goals
    unfold trackUpsert at h
    split at h
    all_goals
      rcases upsertByKey_ok _ _ _ _ _ _ h (fun x => rfl) with ⟨m, hmem, hid, hcase⟩
      refine ⟨m, hmem, hid, ?_⟩
      rcases hcase with hnew | ⟨m0, hupd⟩
      · rw [hnew]
        rfl
      · rw [hupd]
        rfl

/-- C6: every mapping store reachable by this core (empty store closed under
the two webhooks) satisfies, at every instant, the invariant of at most one
live correlator-free mapping per (identity, event) pair and at most one live
mapping per correlator — the upsert is keyed on whichever identifying tuple
is present — and every successful upsert (creation or overwrite) sets the
affected row's expiry to 30 days from the time of the upsert. -/
theorem c6_upsert_invariant_and_ttl :
    (∀ ms, MapsReachable ms → ∀ now, liveInv now ms) ∧
    (∀ (a : TrackArgs) (db : Db) (k : String) (db' : Db),
      track_send a db = (.ok k, db') →
      ∃ m, m ∈ db'.maps ∧ m.id = k ∧ m.expiresAt = a.now + thirtyDays) := by
  constructor
  · intro ms h now
    exact liveInv_of_strongInv ms (reachable_strongInv ms h) now
  · intro a db k db' h
    exact track_send_ok_expiry a db k db' h

/-- Witness for C6: the live invariant at the empty store, and the refreshed
expiry after a concrete successful upsert. -/
theorem c6_upsert_invariant_and_ttl_witness :
    liveInv 0 [] ∧
    (∃ m, m ∈ (track_send ⟨"s", "s", true, ⟨"15551234567", some "E1", some "R1", none⟩, 0, "M1"⟩
          ⟨[⟨"R1", "E1", "G1", "unset", none, 0, none, none⟩], []⟩).2.maps ∧
      m.id = "M1" ∧
      m.expiresAt = (⟨"s", "s", true, ⟨"15551234567", some "E1", some "R1", none⟩, 0, "M1"⟩ : TrackArgs).now + thirtyDays) :=
  ⟨c6_upsert_invariant_and_ttl.1 [] MapsReachable.nil 0,
   c6_upsert_invariant_and_ttl.2
     ⟨"s", "s", true, ⟨"15551234567", some "E1", some "R1", none⟩, 0, "M1"⟩
     ⟨[⟨"R1", "E1", "G1", "unset", none, 0, none, none⟩], []⟩ "M1"
     (track_send ⟨"s", "s", true, ⟨"15551234567", some "E1", some "R1", none⟩, 0, "M1"⟩
       ⟨[⟨"R1", "E1", "G1", "unset", none, 0, none, none⟩], []⟩).2 (by rfl)⟩

theorem find?_id_eq {l : List EventRegistration} {R : String} {er : EventRegistration}
    (h : l.find? (fun r => r.id == R) = some er) : er.id = R := by
  have := List.find?_some h
  simpa using this

/-- When the combined candidate filter (live rows of the identity for the
event) is a singleton, the resolver's priority 2 picks exactly that row. -/
theorem rsvpChoose_of_event_single (w E : String) (now : Int)
    (maps : List WaSendMap) (row : WaSendMap)
    (h : maps.filter (fun m => (m.eventId == E) && livePred w now m) = [row]) :
    rsvpChoose w none (some E) now maps = some row.eventRegistration := by
  have h2 : (maps.filter (livePred w now)).filter (fun m => m.eventId == E) = [row] := by
    rw [List.filter_filter]
    exact h
  unfold rsvpChoose
  simp only [h2]
  rfl

/-- A correlator-free upsert into a store holding at most one row for the
(identity, event) key succeeds, keeps the registrations, and leaves exactly
one live row for that identity and event, pointing at the given
registration. -/
theorem plain_upsert_resolves (ta : TrackArgs) (w : String)
    (er : EventRegistration) (db : Db) (now2 : Int)
    (huniq : (db.maps.filter (weKey w er.eventId)).length ≤ 1)
    (hlt : now2 < ta.now + thirtyDays) :
    ∃ mid db' row,
      upsertByKey (weKey w er.eventId) (trackDefaults w er ta.now)
          (trackNewRow ta w er none) db = (.ok mid, db') ∧
      db'.regs = db.regs ∧
      row.eventRegistration = er.id ∧
      db'.maps.filter (fun m => (m.eventId == er.eventId) && livePred w now2 m) = [row] := by
  have himp : ∀ m, ((m.eventId == er.eventId) && livePred w now2 m) = true →
      weKey w er.eventId m = true := by
    intro m hm
    have hm' := (Bool.and_eq_true _ _).mp hm
    have hl := (Bool.and_eq_true _ _).mp hm'.2
    unfold weKey
    rw [hl.1, hm'.1]
    rfl
  rcases length_le_one_cases _ huniq with hF | ⟨m0, hF⟩
  · have heq : upsertByKey (weKey w er.eventId) (trackDefaults w er ta.now)
        (trackNewRow ta w er none) db =
        (.ok ta.newId, { db with maps := db.maps ++ [trackNewRow ta w er none] }) := by
      unfold upsertByKey
      rw [hF]
      rfl
    refine ⟨ta.newId, _, trackNewRow ta w er none, heq, rfl, rfl, ?_⟩
    rw [List.filter_append]
    have hq0 : db.maps.filter
        (fun m => (m.eventId == er.eventId) && livePred w now2 m) = [] :=
      filter_nil_of_imp _ _ himp _ hF
    rw [hq0]
    have hqr : (((trackNewRow ta w er none).eventId == er.eventId) &&
        livePred w now2 (trackNewRow ta w er none)) = true := by
      simp [trackNewRow, livePred, hlt]
    simp [hqr]
  · have hm0k : weKey w er.eventId m0 = true :=
      List.of_mem_filter (hF ▸ List.mem_singleton_self m0)
    have heq : upsertByKey (weKey w er.eventId) (trackDefaults w er ta.now)
        (trackNewRow ta w er none) db =
        (.ok m0.id, { db with maps := db.maps.map (fun x =>
          if weKey w er.eventId x then trackDefaults w er ta.now x else x) }) := by
      unfold upsertByKey
      rw [hF]
    refine ⟨m0.id, _, trackDefaults w er ta.now m0, heq, rfl, rfl, ?_⟩
    have hf : ∀ m, weKey w er.eventId m = false →
        (fun x => if weKey w er.eventId x then trackDefaults w er ta.now x else x) m = m := by
      intro m hm
      show (if weKey w er.eventId m then trackDefaults w er ta.now m else m) = m
      rw [if_neg (by simp [hm])]
    have hfm0 : (fun x => if weKey w er.eventId x then trackDefaults w er ta.now x else x) m0
        = trackDefaults w er ta.now m0 := by
      show (if weKey w er.eventId m0 then trackDefaults w er ta.now m0 else m0) = _
      rw [if_pos hm0k]
    have hqf : ((((fun x => if weKey w er.eventId x then trackDefaults w er ta.now x else x) m0).eventId
          == er.eventId) &&
        livePred w now2
          ((fun x => if weKey w er.eventId x then trackDefaults w er ta.now x else x) m0)) = true := by
      rw [hfm0]
      simp [trackDefaults, livePred, hlt]
    have hres := filter_map_single (weKey w er.eventId)
      (fun m => (m.eventId == er.eventId) && livePred w now2 m)
      (fun x => if weKey w er.eventId x then trackDefaults w er ta.now x else x)
      himp hf m0 hqf db.maps hF
    rw [hres, hfm0]

/-- C2 (amended): recording a send (no correlator) for a registration of an
event and immediately resolving by the same identity (in any formatting with
the same digits) and that event returns that registration — provided the
store holds at most one existing row for the normalized identity and event,
the upsert's lookup key.  (With several such rows the upsert itself fails;
see the counterexample.) -/
theorem c2_record_then_resolve (s1 s2 secret hdr E R newId : String)
    (now1 now2 : Int) (db : Db) (er : EventRegistration)
    (h1 : pyStrip secret ≠ "") (h2 : pyStrip hdr = pyStrip secret)
    (hfind : db.regs.find? (fun r => r.id == R) = some er)
    (hev : er.eventId = E) (hE : E ≠ "") (hR : R ≠ "")
    (hnorm : norm_digits s2 = norm_digits s1) (hw : norm_digits s1 ≠ "")
    (huniq : (db.maps.filter (weKey (norm_digits s1) E)).length ≤ 1)
    (hlt : now2 < now1 + thirtyDays) :
    ∃ mid db',
      track_send ⟨secret, hdr, true, ⟨s1, some E, some R, none⟩, now1, newId⟩ db
        = (.ok mid, db') ∧
      rsvpResolve ⟨"yes", none, none, s2, none, some E⟩ now2 db' = .ok er ∧
      er.id = R := by
  have hEo : orNone (some E) = some E := by
    show (if E = "" then none else some E) = some E
    rw [if_neg hE]
  have hRo : orNone (some R) = some R := by
    show (if R = "" then none else some R) = some R
    rw [if_neg hR]
  have hno : orNone (none : Option String) = none := rfl
  have hid : er.id = R := find?_id_eq hfind
  have e1 : track_send ⟨secret, hdr, true, ⟨s1, some E, some R, none⟩, now1, newId⟩ db
      = trackUpsert ⟨secret, hdr, true, ⟨s1, some E, some R, none⟩, now1, newId⟩
          (norm_digits s1) er db := by
    unfold track_send
    simp [h1, h2, hEo, hRo, hfind, hw]
  have e2 : trackUpsert ⟨secret, hdr, true, ⟨s1, some E, some R, none⟩, now1, newId⟩
        (norm_digits s1) er db
      = upsertByKey (weKey (norm_digits s1) er.eventId)
          (trackDefaults (norm_digits s1) er now1)
          (trackNewRow ⟨secret, hdr, true, ⟨s1, some E, some R, none⟩, now1, newId⟩
            (norm_digits s1) er none) db := rfl
  obtain ⟨mid, db', row, heq, hregs, hrow, hfilt⟩ :=
    plain_upsert_resolves ⟨secret, hdr, true, ⟨s1, some E, some R, none⟩, now1, newId⟩
      (norm_digits s1) er db now2 (by rw [hev]; exact huniq) hlt
  refine ⟨mid, db', ?_, ?_, hid⟩
  · rw [e1, e2, heq]
  · have hch : rsvpChoose (norm_digits s2) none (some E) now2 db'.maps = some er.id := by
      rw [hnorm]
      have hfiltE : db'.maps.filter
          (fun m => (m.eventId == E) && livePred (norm_digits s1) now2 m) = [row] := by
        simp only [← hev]
        exact hfilt
      have hsingle := rsvpChoose_of_event_single (norm_digits s1) E now2 db'.maps row hfiltE
      rw [hsingle, hrow]
    have hw2 : ¬ (norm_digits s2 = "") := by
      rw [hnorm]
      exact hw
    unfold rsvpResolve
    simp only [hno, hEo, if_neg hw2, hch, lookupReg, hregs, hid, hfind]

/-- Store for the C2 counterexample: three registrations of event `E1`; one
correlator-free mapping and one correlator-keyed mapping that share the
(identity, event) pair — a state two prior `track_send` calls produce. -/
def c2CxDb : Db :=
  { regs := [⟨"R1", "E1", "G1", "unset", none, 0, none, none⟩,
             ⟨"R2", "E1", "G2", "unset", none, 1, none, none⟩,
             ⟨"R3", "E1", "G3", "unset", none, 2, none, none⟩],
    maps := [⟨"MA", "15551234567", "E1", "R1", none, 0, 2592000, none⟩,
             ⟨"MB", "15551234567", "E1", "R2", some "wamid-1", 1, 2592001, none⟩] }

/-- C2 counterexample: the counterexample store is reachable (two recorded
sends), yet recording a send for registration `R3` fails with a client error
— the `(wa_id, event)` lookup of the upsert matches both rows — so the
immediately following resolve does not return `R3` (it returns `R2`, the
most recent mapping). -/
theorem c2_roundtrip_counterexample :
    MapsReachable c2CxDb.maps ∧
    track_send ⟨"s", "s", true, ⟨"+1 (555) 123-4567", some "E1", some "R3", none⟩, 2, "MC"⟩
        c2CxDb = (.badRequest "track_send error", c2CxDb) ∧
    (whatsapp_rsvp ⟨"s", "s", true, ⟨"yes", none, none, "1 555 123 4567", none, some "E1"⟩, 3⟩
        true true c2CxDb).1 = .ok "R2" "E1" "G2" "yes" (some ⟨3, true⟩) ∧
    ("R2" : String) ≠ "R3" := by
  refine ⟨?_, by decide, by decide, by decide⟩
  have h0 : MapsReachable ([] : List WaSendMap) := .nil
  have h1 := MapsReachable.track
    ⟨"s", "s", true, ⟨"15551234567", some "E1", some "R1", none⟩, 0, "MA"⟩ c2CxDb.regs [] h0
  have h2 := MapsReachable.track
    ⟨"s", "s", true, ⟨"15551234567", some "E1", some "R2", some "wamid-1"⟩, 1, "MB"⟩ c2CxDb.regs
    ((track_send ⟨"s", "s", true, ⟨"15551234567", some "E1", some "R1", none⟩, 0, "MA"⟩
      { regs := c2CxDb.regs, maps := [] }).2.maps) h1
  have he : (track_send ⟨"s", "s", true, ⟨"15551234567", some "E1", some "R2", some "wamid-1"⟩, 1, "MB"⟩
      { regs := c2CxDb.regs,
        maps := (track_send ⟨"s", "s", true, ⟨"15551234567", some "E1", some "R1", none⟩, 0, "MA"⟩
          { regs := c2CxDb.regs, maps := [] }).2.maps }).2.maps = c2CxDb.maps := by decide
  exact he ▸ h2

/-- Witness for C2 (amended) at a concrete store with no prior mapping. -/
theorem c2_record_then_resolve_witness :
    ∃ mid db',
      track_send ⟨"s", "s", true, ⟨"15551234567", some "E1", some "R1", none⟩, 0, "M1"⟩
          ⟨[⟨"R1", "E1", "G1", "unset", none, 0, none, none⟩], []⟩ = (.ok mid, db') ∧
      rsvpResolve ⟨"yes", none, none, "+1 (555) 123-4567", none, some "E1"⟩ 5 db' =
        .ok ⟨"R1", "E1", "G1", "unset", none, 0, none, none⟩ ∧
      (⟨"R1", "E1", "G1", "unset", none, 0, none, none⟩ : EventRegistration).id = "R1" :=
  c2_record_then_resolve "15551234567" "+1 (555) 123-4567" "s" "s" "E1" "R1" "M1" 0 5
    ⟨[⟨"R1", "E1", "G1", "unset", none, 0, none, none⟩], []⟩
    ⟨"R1", "E1", "G1", "unset", none, 0, none, none⟩
    (by decide) (by decide) (by decide) (by decide) (by decide) (by decide)
    (by decide) (by decide) (by decide) (by decide)

/-- The upsert lookup key of `track_send`: correlator if present, else the
(identity, event) pair. -/
def trackKey (wamid : Option String) (w e : String) : WaSendMap → Bool :=
  match wamid with
  | some c => corrKey c
  | none => weKey w e

/-- An upsert into a store with at most one row matching the lookup key
succeeds. -/
theorem upsertByKey_succeeds (key : WaSendMap → Bool) (upd : WaSendMap → WaSendMap)
    (newRow : WaSendMap) (db : Db)
    (h : (db.maps.filter key).length ≤ 1) :
    ∃ mid db', upsertByKey key upd newRow db = (.ok mid, db') := by
  unfold upsertByKey
  rcases length_le_one_cases _ h with hF | ⟨m0, hF⟩ <;> rw [hF] <;> exact ⟨_, _, rfl⟩

/-- C9 (amended): with a valid token and body but no `event_registration_id`,
the request is not rejected for that reason: the mapping is attached to the
most recently created registration of the given event, and a client error
arises only when the event has no registrations at all or when the upsert's
lookup key matches more than one existing row (in which case the upsert
itself fails). -/
theorem c9_attach_latest_registration (a : TrackArgs) (db : Db) (eid : String)
    (h1 : pyStrip a.secret ≠ "") (h2 : pyStrip a.header = pyStrip a.secret)
    (h3 : a.jsonOk = true)
    (h4 : orNone a.body.eventRegistrationId = none)
    (h5 : orNone a.body.eventId = some eid)
    (h6 : norm_digits a.body.waId ≠ "") :
    (db.regs.filter (fun r => r.eventId == eid) = [] →
      track_send a db = (.badRequest "could not resolve registration", db)) ∧
    (∀ er, latestReg (db.regs.filter (fun r => r.eventId == eid)) = some er →
      (db.maps.filter (trackKey (orNone a.body.templateWamid)
        (norm_digits a.body.waId) er.eventId)).length ≤ 1 →
      ∃ mid db', track_send a db = (.ok mid, db') ∧
        ∃ m, m ∈ db'.maps ∧ m.id = mid ∧ m.eventRegistration = er.id) := by
  constructor
  · intro hempty
    have hlr : latestReg ([] : List EventRegistration) = none := rfl
    unfold track_send
    simp [h1, h2, h3, h4, h5, h6, hempty, hlr]
  · intro er hlatest huniq
    have e1 : track_send a db = trackUpsert a (norm_digits a.body.waId) er db := by
      unfold track_send
      simp [h1, h2, h3, h4, h5, h6, hlatest]
    cases horn : orNone a.body.templateWamid with
    | some c =>
      have e2 : trackUpsert a (norm_digits a.body.waId) er db
          = upsertByKey (corrKey c) (trackDefaults (norm_digits a.body.waId) er a.now)
              (trackNewRow a (norm_digits a.body.waId) er (some c)) db := by
        unfold trackUpsert
        rw [horn]
      rw [horn] at huniq
      have huniq' : (db.maps.filter (corrKey c)).length ≤ 1 := huniq
      obtain ⟨mid, db', hupser⟩ := upsertByKey_succeeds (corrKey c)
        (trackDefaults (norm_digits a.body.waId) er a.now)
        (trackNewRow a (norm_digits a.body.waId) er (some c)) db huniq'
      obtain ⟨m, hmem, hid', hcase⟩ := upsertByKey_ok _ _ _ _ _ _ hupser (fun x => rfl)
      refine ⟨mid, db', by rw [e1, e2, hupser], m, hmem, hid', ?_⟩
      rcases hcase with hnew | ⟨m0, hupd⟩
      · rw [hnew]
        rfl
      · rw [hupd]
        rfl
    | none =>
      have e2 : trackUpsert a (norm_digits a.body.waId) er db
          = upsertByKey (weKey (norm_digits a.body.waId) er.eventId)
              (trackDefaults (norm_digits a.body.waId) er a.now)
              (trackNewRow a (norm_digits a.body.waId) er none) db := by
        unfold trackUpsert
        rw [horn]
      rw [horn] at huniq
      have huniq' : (db.maps.filter (weKey (norm_digits a.body.waId) er.eventId)).length ≤ 1 := huniq
      obtain ⟨mid, db', hupser⟩ := upsertByKey_succeeds
        (weKey (norm_digits a.body.waId) er.eventId)
        (trackDefaults (norm_digits a.body.waId) er a.now)
        (trackNewRow a (norm_digits a.body.waId) er none) db huniq'
      obtain ⟨m, hmem, hid', hcase⟩ := upsertByKey_ok _ _ _ _ _ _ hupser (fun x => rfl)
      refine ⟨mid, db', by rw [e1, e2, hupser], m, hmem, hid', ?_⟩
      rcases hcase with hnew | ⟨m0, hupd⟩
      · rw [hnew]
        rfl
      · rw [hupd]
        rfl

/-- Store for the C9 counterexample: event `E9` has a registration, and two
mappings (one plain, one correlator-keyed) share the (identity, event) pair
— a state two prior `track_send` calls produce. -/
def c9CxDb : Db :=
  { regs := [⟨"R9", "E9", "G9", "unset", none, 0, none, none⟩],
    maps := [⟨"NA", "18885550000", "E9", "R9", none, 0, 2592000, none⟩,
             ⟨"NB", "18885550000", "E9", "R9", some "wamid-9", 1, 2592001, none⟩] }

/-- C9 counterexample: the store is reachable, event `E9` does have a
registration, yet the request without `event_registration_id` fails with a
client error — the upsert lookup matches two rows — contradicting "fails
only when the event has no registrations at all". -/
theorem c9_missing_regid_counterexample :
    MapsReachable c9CxDb.maps ∧
    c9CxDb.regs.filter (fun r => r.eventId == "E9") ≠ [] ∧
    track_send ⟨"t", "t", true, ⟨"18885550000", some "E9", none, none⟩, 2, "NC"⟩ c9CxDb
      = (.badRequest "track_send error", c9CxDb) := by
  refine ⟨?_, by decide, by decide⟩
  have h0 : MapsReachable ([] : List WaSendMap) := .nil
  have h1 := MapsReachable.track
    ⟨"t", "t", true, ⟨"18885550000", some "E9", none, none⟩, 0, "NA"⟩ c9CxDb.regs [] h0
  have h2 := MapsReachable.track
    ⟨"t", "t", true, ⟨"18885550000", some "E9", none, some "wamid-9"⟩, 1, "NB"⟩ c9CxDb.regs
    ((track_send ⟨"t", "t", true, ⟨"18885550000", some "E9", none, none⟩, 0, "NA"⟩
      { regs := c9CxDb.regs, maps := [] }).2.maps) h1
  have he : (track_send ⟨"t", "t", true, ⟨"18885550000", some "E9", none, some "wamid-9"⟩, 1, "NB"⟩
      { regs := c9CxDb.regs,
        maps := (track_send ⟨"t", "t", true, ⟨"18885550000", some "E9", none, none⟩, 0, "NA"⟩
          { regs := c9CxDb.regs, maps := [] }).2.maps }).2.maps = c9CxDb.maps := by decide
  exact he ▸ h2

/-- Witness for C9 (amended) at a concrete request over a fresh store. -/
theorem c9_attach_latest_registration_witness :
    ∃ mid db',
      track_send ⟨"t", "t", true, ⟨"18885550000", some "E9", none, none⟩, 0, "NA"⟩
        ⟨[⟨"R9", "E9", "G9", "unset", none, 0, none, none⟩], []⟩ = (.ok mid, db') ∧
      ∃ m, m ∈ db'.maps ∧ m.id = mid ∧
        m.eventRegistration = (⟨"R9", "E9", "G9", "unset", none, 0, none, none⟩ : EventRegistration).id :=
  (c9_attach_latest_registration
    ⟨"t", "t", true, ⟨"18885550000", some "E9", none, none⟩, 0, "NA"⟩
    ⟨[⟨"R9", "E9", "G9", "unset", none, 0, none, none⟩], []⟩ "E9"
    (by decide) (by decide) (by decide) (by decide) (by decide) (by decide)).2
    ⟨"R9", "E9", "G9", "unset", none, 0, none, none⟩ (by decide) (by decide)
